import Mathlib

/-!
Verification development for the fetch-dispatch core of a federated GraphQL
router.  Part 1 embeds the structural well-formedness checker of
`apollo-federation/src/operation/integrity.rs`; part 2 embeds the fetch
dispatcher `FetchService::call` of `apollo-router/src/services/fetch_service.rs`.

Machine-level details that live outside the embedded files (schema lookup
tables, serialization of operations, the transport itself) are modelled as
explicit data or as function-valued parameters, so every definition stays
executable and every theorem is about the embedded control flow.
-/

/-! ### Structural validator: data model -/

/-- Structural errors produced by the well-formedness checker
(`FederationError::internal(msg)` in the source). -/
inductive FederationError where
  | internal (msg : String)
deriving DecidableEq, Repr

deriving instance DecidableEq for Except

/-- Position of a composite (object/interface/union) type definition,
identified by its type name (`CompositeTypeDefinitionPosition`). -/
structure CompositeTypeDefinitionPosition where
  type_name : String
deriving DecidableEq, Repr

/-- Position of an arbitrary type definition.  Only the split between
composite and non-composite kinds matters to the checker, because
`TryInto<CompositeTypeDefinitionPosition>` fails exactly on the
non-composite kinds. -/
inductive TypeDefinitionPosition where
  | composite (pos : CompositeTypeDefinitionPosition)
  | nonComposite (type_name : String)
deriving DecidableEq, Repr

/-- Modelled from the spec: `ValidFederationSchema` compared by an explicit
identity token (`label`, per the design note that schema identity must be a
value-comparable token), together with the field-resolution table the checker
consults: entries `(type name, field name, output base type)`. -/
structure ValidFederationSchema where
  label : String
  field_table : List (String × String × TypeDefinitionPosition)
deriving DecidableEq, Repr

/-- Position of a field definition: a type name paired with a field name
(`FieldDefinitionPosition`). -/
structure FieldDefinitionPosition where
  type_name : String
  field_name : String
deriving DecidableEq, Repr

/-- `field_position.try_get(schema.schema())`: resolve the field at its
declared position in the given schema, `none` when absent. -/
def FieldDefinitionPosition.try_get (pos : FieldDefinitionPosition)
    (schema : ValidFederationSchema) : Option TypeDefinitionPosition :=
  (schema.field_table.find? fun e =>
    e.1 == pos.type_name && e.2.1 == pos.field_name).map (·.2.2)

/-- `TryInto<CompositeTypeDefinitionPosition>`: succeeds exactly on composite
type positions. -/
def TypeDefinitionPosition.try_into_composite :
    TypeDefinitionPosition → Except FederationError CompositeTypeDefinitionPosition
  | .composite pos => .ok pos
  | .nonComposite name =>
      .error (.internal ("type " ++ name ++ " is not a composite type"))

/-- Data of a field selection (`field.field.data()`): its owning schema and
its declared position. -/
structure FieldData where
  schema : ValidFederationSchema
  field_position : FieldDefinitionPosition
deriving DecidableEq, Repr

/-- Modelled from the spec: `FieldData::output_base_type` derives the field's
output base type, resolving the field's declared position in the field's own
schema; failure to resolve is an error. -/
def FieldData.output_base_type (data : FieldData) :
    Except FederationError TypeDefinitionPosition :=
  match data.field_position.try_get data.schema with
  | some ty => .ok ty
  | none => .error (.internal ("Field not found: " ++ data.field_position.field_name))

/-- Data of a fragment spread (`fragment_spread.spread.data()`): owning
schema, referenced fragment name, and the spread's own type condition. -/
structure FragmentSpreadData where
  schema : ValidFederationSchema
  fragment_name : String
  type_condition_position : CompositeTypeDefinitionPosition
deriving DecidableEq, Repr

/-- Data of an inline fragment (`inline_fragment.inline_fragment.data()`):
owning schema, expected parent type, and optional explicit type condition. -/
structure InlineFragmentData where
  schema : ValidFederationSchema
  parent_type_position : CompositeTypeDefinitionPosition
  type_condition_position : Option CompositeTypeDefinitionPosition
deriving DecidableEq, Repr

/-- `InlineFragmentData::casted_type`: the explicit type condition when
present, else the parent type. -/
def InlineFragmentData.casted_type (data : InlineFragmentData) :
    CompositeTypeDefinitionPosition :=
  data.type_condition_position.getD data.parent_type_position

mutual

/-- The closed selection variant: `Field` (optional nested selection set),
`FragmentSpread` (named reference plus its own rebased selection set),
`InlineFragment` (cast plus nested selection set). -/
inductive Selection where
  | field (data : FieldData) (selection_set : OptSelectionSet)
  | fragmentSpread (spread : FragmentSpreadData) (selection_set : SelectionSet)
  | inlineFragment (inline_fragment : InlineFragmentData) (selection_set : SelectionSet)

/-- `Option<SelectionSet>` for the field variant, spelled as part of the
mutual family so that recursion over the tree stays structural. -/
inductive OptSelectionSet where
  | none
  | some (s : SelectionSet)

/-- A selection set: owning schema, the composite type it selects against,
and its ordered child selections. -/
inductive SelectionSet where
  | mk (schema : ValidFederationSchema)
       (type_position : CompositeTypeDefinitionPosition)
       (selections : SelectionList)

/-- The list of child selections of a selection set, as part of the mutual
family. -/
inductive SelectionList where
  | nil
  | cons (head : Selection) (tail : SelectionList)

end

/-- Owning schema of a selection set. -/
def SelectionSet.schema : SelectionSet → ValidFederationSchema
  | .mk s _ _ => s

/-- Type position of a selection set. -/
def SelectionSet.type_position : SelectionSet → CompositeTypeDefinitionPosition
  | .mk _ t _ => t

/-- Child selections of a selection set. -/
def SelectionSet.selections : SelectionSet → SelectionList
  | .mk _ _ l => l

/-- View a `SelectionList` as an ordinary list. -/
def SelectionList.toList : SelectionList → List Selection
  | .nil => []
  | .cons s rest => s :: rest.toList

/-- A named fragment definition: owning schema, type condition, and body
selection set. -/
structure Fragment where
  schema : ValidFederationSchema
  type_condition_position : CompositeTypeDefinitionPosition
  selection_set : SelectionSet

/-- `NamedFragments`: mapping from fragment name to fragment definition. -/
structure NamedFragments where
  fragments : List (String × Fragment)

/-- `NamedFragments::get`: look a fragment definition up by name. -/
def NamedFragments.get (nf : NamedFragments) (name : String) : Option Fragment :=
  (nf.fragments.find? fun e => e.1 == name).map (·.2)

mutual

/-- `Selection::is_well_formed` from `operation/integrity.rs`: structural
well-formedness of one selection against a schema, a fragment table and the
parent type in force. -/
def Selection.is_well_formed :
    Selection → ValidFederationSchema → NamedFragments →
    CompositeTypeDefinitionPosition → Except FederationError Unit
  | .field data sel, schema, named_fragments, _parent_type =>
    if data.schema ≠ schema then
      .error (.internal ("Schema mismatch: expected " ++ schema.label ++
        ", got " ++ data.schema.label))
    else if (data.field_position.try_get schema).isNone then
      .error (.internal ("Field not found: " ++ data.field_position.field_name))
    else
      match sel with
      | .none => .ok ()
      | .some selection_set =>
        match data.output_base_type with
        | .error e => .error e
        | .ok base_type =>
          match base_type.try_into_composite with
          | .error e => .error e
          | .ok sub_selection_set_type =>
            if selection_set.type_position ≠ sub_selection_set_type then
              .error (.internal ("Selection set type position mismatch: expected " ++
                sub_selection_set_type.type_name ++ ", got " ++
                selection_set.type_position.type_name))
            else
              selection_set.is_well_formed schema named_fragments
  | .fragmentSpread spread ss, schema, named_fragments, _parent_type =>
    if spread.schema ≠ schema then
      .error (.internal ("Schema mismatch: expected " ++ schema.label ++
        ", got " ++ spread.schema.label))
    else if spread.type_condition_position ≠ ss.type_position then
      .error (.internal ("Fragment type-condition and sub-selection-set type mismatch: " ++
        spread.type_condition_position.type_name ++ " vs " ++
        ss.type_position.type_name))
    else
      match ss.is_well_formed schema named_fragments with
      | .error e => .error e
      | .ok () =>
        match named_fragments.get spread.fragment_name with
        | none =>
          .error (.internal ("Fragment name not found in the given set: " ++
            spread.fragment_name))
        | some fragment_def =>
          if fragment_def.schema ≠ schema then
            .error (.internal ("Fragment definition schema mismatch: expected " ++
              schema.label ++ ", got " ++ fragment_def.schema.label))
          else if fragment_def.type_condition_position ≠ spread.type_condition_position then
            .error (.internal ("Fragment definition type-condition mismatch: expected " ++
              spread.type_condition_position.type_name ++ ", got " ++
              fragment_def.type_condition_position.type_name))
          else
            .ok ()
  | .inlineFragment inline ss, schema, named_fragments, parent_type =>
    if inline.schema ≠ schema then
      .error (.internal ("Schema mismatch: expected " ++ schema.label ++
        ", got " ++ inline.schema.label))
    else if inline.parent_type_position ≠ parent_type then
      .error (.internal ("Parent type mismatch: expected " ++
        parent_type.type_name ++ ", got " ++ inline.parent_type_position.type_name))
    else if inline.casted_type ≠ ss.type_position then
      .error (.internal ("Inline fragment casted-type and sub-selection-set type mismatch: " ++
        inline.casted_type.type_name ++ " vs " ++ ss.type_position.type_name))
    else
      ss.is_well_formed schema named_fragments

/-- `SelectionSet::is_well_formed`: schema identity match, then validate each
child selection with this set's own type position as parent type. -/
def SelectionSet.is_well_formed :
    SelectionSet → ValidFederationSchema → NamedFragments →
    Except FederationError Unit
  | .mk sch tp sels, schema, named_fragments =>
    if sch ≠ schema then
      .error (.internal ("Schema mismatch: expected " ++ schema.label ++
        ", got " ++ sch.label))
    else
      sels.is_well_formed schema named_fragments tp

/-- The `for selection in self.iter() { selection.is_well_formed(..)?; }`
loop: validate children in order, stopping at the first error. -/
def SelectionList.is_well_formed :
    SelectionList → ValidFederationSchema → NamedFragments →
    CompositeTypeDefinitionPosition → Except FederationError Unit
  | .nil, _, _, _ => .ok ()
  | .cons s rest, schema, named_fragments, tp =>
    match s.is_well_formed schema named_fragments tp with
    | .error e => .error e
    | .ok () => rest.is_well_formed schema named_fragments tp

end

/-- Case analysis on an `Except` value as an equation, avoiding motive
abstraction in goals. -/
theorem except_cases {e0 : Type} {a0 : Type} (e : Except e0 a0) :
    (∃ err, e = .error err) ∨ (∃ a, e = .ok a) := by
  cases e with
  | error err => exact Or.inl ⟨err, rfl⟩
  | ok a => exact Or.inr ⟨a, rfl⟩

/-- Helper: the child-validation loop succeeds iff every child selection is
well-formed with the given parent type. -/
theorem SelectionList.is_well_formed_ok_iff :
    ∀ (sels : SelectionList) (schema : ValidFederationSchema)
      (nf : NamedFragments) (tp : CompositeTypeDefinitionPosition),
      sels.is_well_formed schema nf tp = .ok () ↔
        ∀ s ∈ sels.toList, s.is_well_formed schema nf tp = .ok ()
  | .nil, schema, nf, tp => by
      simp [SelectionList.is_well_formed, SelectionList.toList]
  | .cons s rest, schema, nf, tp => by
      have ih := SelectionList.is_well_formed_ok_iff rest schema nf tp
      simp only [SelectionList.is_well_formed, SelectionList.toList, List.mem_cons]
      cases h : s.is_well_formed schema nf tp with
      | error e =>
        simp only [h]
        constructor
        · intro hc; cases hc
        · intro hc
          have := hc s (Or.inl rfl)
          rw [h] at this
          cases this
      | ok u =>
        cases u
        simp only [h, ih]
        constructor
        · intro hrest t ht
          cases ht with
          | inl he => rw [he]; exact h
          | inr he => exact hrest t he
        · intro hall t ht
          exact hall t (Or.inr ht)

/-- C4: a fragment spread is well-formed exactly when the spread's schema is
the checked schema, its own type condition equals its sub-selection set's
type position, the sub-selection set is well-formed, the fragment name
resolves in the fragment table, and the resolved definition's schema and type
condition equal those of the spread. -/
theorem c4_fragment_spread_well_formed_iff
    (spread : FragmentSpreadData) (ss : SelectionSet)
    (schema : ValidFederationSchema) (nf : NamedFragments)
    (parent_type : CompositeTypeDefinitionPosition) :
    (Selection.fragmentSpread spread ss).is_well_formed schema nf parent_type = .ok () ↔
      spread.schema = schema ∧
      spread.type_condition_position = ss.type_position ∧
      ss.is_well_formed schema nf = .ok () ∧
      ∃ fragment_def, nf.get spread.fragment_name = some fragment_def ∧
        fragment_def.schema = schema ∧
        fragment_def.type_condition_position = spread.type_condition_position := by
  simp only [Selection.is_well_formed]
  split_ifs with h1 h2
  · simp [h1]
  · simp [h2]
  · cases hss : ss.is_well_formed schema nf with
    | error e =>
      simp [hss]
    | ok u =>
      cases u
      cases hget : nf.get spread.fragment_name with
      | none => simp [hget]
      | some fragment_def =>
        simp only [hget]
        split_ifs with h3 h4
        · simp [h3]
        · simp [h4]
        · simp_all

/-- C5: a field selection is well-formed exactly when the field's schema is
the checked schema, the field resolves in that schema at its declared
position, and any sub-selection has the field's composite output base type as
its type position and is itself well-formed. -/
theorem c5_field_well_formed_iff
    (data : FieldData) (sel : OptSelectionSet)
    (schema : ValidFederationSchema) (nf : NamedFragments)
    (parent_type : CompositeTypeDefinitionPosition) :
    (Selection.field data sel).is_well_formed schema nf parent_type = .ok () ↔
      data.schema = schema ∧
      (data.field_position.try_get schema).isSome ∧
      ∀ ss, sel = .some ss →
        ∃ base_type sub_type,
          data.output_base_type = .ok base_type ∧
          base_type.try_into_composite = .ok sub_type ∧
          ss.type_position = sub_type ∧
          ss.is_well_formed schema nf = .ok () := by
  rw [Selection.is_well_formed.eq_def]
  by_cases h1 : data.schema = schema
  · rcases Option.eq_none_or_eq_some (data.field_position.try_get schema) with hopt | ⟨fd, hopt⟩
    · simp [h1, hopt]
    · cases sel with
      | none => simp [h1, hopt]
      | some ss =>
        rcases except_cases data.output_base_type with ⟨e, hbase⟩ | ⟨base_type, hbase⟩
        · simp [h1, hopt, hbase]
        · rcases except_cases base_type.try_into_composite with ⟨e, hsub⟩ | ⟨sub_type, hsub⟩
          · simp [h1, hopt, hbase, hsub]
          · by_cases h3 : ss.type_position = sub_type
            · simp [h1, hopt, hbase, hsub, h3]
            · simp [h1, hopt, hbase, hsub, h3]
  · simp [h1]

/-- C6: an inline fragment checked with parent type P is well-formed exactly
when its schema is the checked schema, its declared parent type equals P, its
effective cast type equals its sub-selection set's type position, and the
sub-selection set is well-formed; and a selection set is well-formed exactly
when its schema is the checked schema and every child selection is
well-formed with the set's own type position as parent type. -/
theorem c6_inline_fragment_and_selection_set_well_formed_iff :
    (∀ (inline : InlineFragmentData) (ss : SelectionSet)
       (schema : ValidFederationSchema) (nf : NamedFragments)
       (parent_type : CompositeTypeDefinitionPosition),
      (Selection.inlineFragment inline ss).is_well_formed schema nf parent_type = .ok () ↔
        inline.schema = schema ∧
        inline.parent_type_position = parent_type ∧
        inline.casted_type = ss.type_position ∧
        ss.is_well_formed schema nf = .ok ()) ∧
    (∀ (sch : ValidFederationSchema) (tp : CompositeTypeDefinitionPosition)
       (sels : SelectionList) (schema : ValidFederationSchema) (nf : NamedFragments),
      (SelectionSet.mk sch tp sels).is_well_formed schema nf = .ok () ↔
        sch = schema ∧
        ∀ s ∈ sels.toList, s.is_well_formed schema nf tp = .ok ()) := by
  constructor
  · intro inline ss schema nf parent_type
    simp only [Selection.is_well_formed]
    split_ifs with h1 h2 h3 <;> simp_all
  · intro sch tp sels schema nf
    simp only [SelectionSet.is_well_formed]
    split_ifs with h1 <;>
      simp_all [SelectionList.is_well_formed_ok_iff]

/-- Fixture schema for C10. -/
def c10_schema : ValidFederationSchema :=
  ⟨"S", [("T", "f", .composite ⟨"T"⟩)]⟩

/-- A fragment body that is NOT well-formed against `c10_schema`: it selects
a field that does not resolve in the schema. -/
def c10_bad_body : SelectionSet :=
  .mk c10_schema ⟨"T"⟩ (.cons (.field ⟨c10_schema, ⟨"T", "absent"⟩⟩ .none) .nil)

/-- Fragment table binding name `F` to a definition with the ill-formed
body. -/
def c10_fragments : NamedFragments :=
  ⟨[("F", ⟨c10_schema, ⟨"T"⟩, c10_bad_body⟩)]⟩

/-- A fragment spread referencing `F`, with a well-formed (empty) rebased
sub-selection set. -/
def c10_spread : Selection :=
  .fragmentSpread ⟨c10_schema, "F", ⟨"T"⟩⟩ (.mk c10_schema ⟨"T"⟩ .nil)

/-- C10: validating a fragment spread never recurses into the referenced
definition's body: in this concrete fragment table the definition named `F`
has an ill-formed body selection set, yet a spread referencing `F` still
validates Ok. -/
theorem c10_spread_does_not_recurse_into_definition_body :
    c10_spread.is_well_formed c10_schema c10_fragments ⟨"T"⟩ = .ok () ∧
    ∃ fragment_def, c10_fragments.get "F" = some fragment_def ∧
      fragment_def.selection_set.is_well_formed c10_schema c10_fragments ≠ .ok () := by
  refine ⟨by decide, ⟨c10_schema, ⟨"T"⟩, c10_bad_body⟩, rfl, by decide⟩

/-! ### Fetch dispatcher: data model

Embedding of `FetchService::call` from
`apollo-router/src/services/fetch_service.rs`.  Collaborator types that the
dispatcher only passes through are modelled as small concrete records;
collaborator *code* that the dispatcher invokes (variable resolution,
operation aliasing, connector pre-processing, the transport itself) is
modelled as function-valued parameters so that the dispatcher's own control
flow is the only thing being embedded. -/

/-- A JSON-like value tree (`json_ext::Value`); only the empty object is
built by the dispatcher itself. -/
inductive Value where
  | null
  | object (fields : List (String × Value))

/-- A path (`json_ext::Path`) of field-name/index segments into the
accumulated data. -/
abbrev JsonPath := List String

/-- Resolved variable bindings (name to value). -/
abbrev VarMap := List (String × Value)

/-- A deferred-fetch record produced by the merge step. -/
structure DeferRecord where
  tag : String

/-- `FetchResponse`: merged value plus newly recorded deferred-fetch
entries. -/
abbrev FetchResponse := Value × List DeferRecord

/-- The fetch node's schema-aware query hash. -/
structure QueryHash where
  hash : String

/-- The fetch node's authorization requirement token. -/
structure Authorization where
  token : String

/-- A resolved target address. -/
structure Uri where
  address : String

/-- Body of the original top-level request (`supergraph_request.body()`). -/
structure RequestBody where
  body : String

/-- The original top-level request. -/
structure SupergraphRequest where
  body : RequestBody

/-- Propagated execution context. -/
structure Context where
  ctx : String

/-- A connector descriptor carried by a `Connect` source node. -/
structure ConnectNode where
  descriptor : String

/-- Modelled from the spec: the optional attached source/connector descriptor
(`source::query_plan::FetchNode`), whose `Connect` variant carries the
connector node handed to the pre-processing step. -/
inductive SourceFetchNode where
  | Connect (node : ConnectNode)

/-- The connector registry held by the service. -/
structure Connectors where
  registry : String

/-- Result of the connector pre-processing step; the dispatcher discards it,
so its content is opaque. -/
structure ProcessOutcome where
  succeeded : Bool

/-- A transport capability returned by the service factory for a service
name. -/
structure TransportService where
  id : String

/-- A per-service validated subgraph schema
(`Valid<apollo_compiler::Schema>`). -/
structure SubgraphSchema where
  id : String

/-- Per-record contextual arguments attached to resolved variables. -/
structure ContextualArguments where
  args : String

/-- An aliased executable operation built by
`build_operation_with_aliasing`. -/
structure AliasedOperation where
  doc : String

/-- Errors from alias construction. -/
structure AliasError where
  msg : String

/-- The fetch node's required input paths (`requires`). -/
structure Requires where
  paths : List JsonPath

/-- A rewrite rule set (input, context or output rewrites). -/
structure Rewrites where
  rules : List String

/-- The fetch node's operation document; `as_serialized` is the raw
serialized operation text. -/
structure Operation where
  as_serialized : String

/-- Operation kind of the fetch node. -/
inductive OperationKind where
  | query
  | mutation
  | subscription

/-- `RestFetchNode`: the two service names carried by a REST/connector-backed
protocol variant. -/
structure RestFetchNode where
  connector_service_name : String
  parent_service_name : String

/-- Modelled from the spec: the fetch node's protocol variant, plain GraphQL
versus REST/connector-backed. -/
inductive Protocol where
  | GraphQL
  | RestFetch (node : RestFetchNode)

/-- `Variables`: the result of variable resolution — bindings, the inverted
path index, and optional per-record contextual arguments. -/
structure Variables where
  vars : VarMap
  inverted_paths : List JsonPath
  contextual_arguments : Option ContextualArguments

/-- `FetchNode`: one planned fetch step, as destructured by
`FetchService::call`. -/
structure FetchNode where
  operation : Operation
  operation_kind : OperationKind
  operation_name : Option String
  service_name : String
  requires : Requires
  input_rewrites : Rewrites
  context_rewrites : Rewrites
  variable_usages : List String
  output_rewrites : Rewrites
  id : Option String
  protocol : Protocol
  source_node : Option SourceFetchNode
  schema_aware_hash : QueryHash
  authorization : Authorization

/-- The shared registry of deferred fetches. -/
structure DeferredFetches where
  entries : List String

/-- `FetchRequest`: a fetch node paired with the original request, the
deferred-fetch registry, accumulated data, current path and context. -/
structure FetchRequest where
  fetch_node : FetchNode
  supergraph_request : SupergraphRequest
  deferred_fetches : DeferredFetches
  data : Value
  current_dir : JsonPath
  context : Context

/-- Modelled from the spec: `crate::spec::Schema`, restricted to the one
capability the dispatcher uses — the service registry mapping a service name
to its target address (`subgraph_url`). -/
structure Schema where
  subgraph_url : String → Option Uri

/-- The GraphQL-shaped body of the outbound request: operation text,
operation name and variables. -/
structure GraphQLRequest where
  query : String
  operation_name : Option String
  vars : VarMap

/-- The outbound HTTP request: POST method, resolved address, GraphQL
body. -/
structure HttpRequest where
  method : String
  uri : Uri
  body : GraphQLRequest

/-- `SubgraphRequest`: the constructed outbound request, including the
subgraph name used for attribution of the outbound call, the propagated
context, and the fetch node's query hash and authorization token. -/
structure SubgraphRequest where
  supergraph_request : SupergraphRequest
  subgraph_request : HttpRequest
  subgraph_name : String
  operation_kind : OperationKind
  context : Context
  query_hash : QueryHash
  authorization : Authorization

/-- `FetchService`: the dispatcher's configuration, with the service
factory's `create` and the per-service schema map as lookup functions. -/
structure FetchService where
  service_factory : String → Option TransportService
  schema : Schema
  subgraph_schemas : String → Option SubgraphSchema
  connectors : Connectors

/-- The collaborator code invoked by `FetchService::call`, kept abstract:
`Variables::new` (variable resolution), `build_operation_with_aliasing`
together with the `serialize().no_indent()` printer, `process_source_node`
(connector pre-processing), and `FetchNode::subgraph_fetch` (transport call
plus merge). -/
structure ExternalFns where
  variables_new : Requires → List String → Value → JsonPath → RequestBody →
    Schema → Rewrites → Rewrites → Option Variables
  build_operation_with_aliasing : Operation → ContextualArguments →
    SubgraphSchema → Except AliasError AliasedOperation
  serialize_no_indent : AliasedOperation → String
  process_source_node : ConnectNode → Connectors → Value → List JsonJsonPath →
    ProcessOutcome
  subgraph_fetch : TransportService → SubgraphRequest → String → JsonPath →
    Requires → Rewrites → Schema → List JsonJsonPath → Option String →
    DeferredFetches → String → VarMap → FetchResponse

/-- Observable steps of one dispatch, in execution order: an attempted alias
construction, obtaining a transport capability from the service factory,
invoking connector pre-processing (with the outcome it produced), and the
transport call via `subgraph_fetch` (with the attribution service name and
the constructed request). -/
inductive Effect where
  | aliasAttempt (operation : Operation) (args : ContextualArguments)
      (subgraph_schema : SubgraphSchema)
  | createService (name : String)
  | processSource (node : ConnectNode) (outcome : ProcessOutcome)
  | transportCall (service : TransportService) (name : String)
      (request : SubgraphRequest)

/-- Result of one dispatch: either a panic (`panic!` / `.expect`) or the
`Ok` fetch response. -/
inductive CallOutcome where
  | panicked (msg : String)
  | ok (response : FetchResponse)

/-- A dispatch outcome together with the trace of observable steps. -/
structure CallResult where
  outcome : CallOutcome
  effects : List Effect

/-- Resolution of the semantic and transport-attribution names from the fetch
node's protocol: for `Protocol::RestFetch` the pair is
`(parent_service_name, connector_service_name)`; otherwise both components
are the fetch node's own service name.  The first component is bound to
`service_name` in `FetchService::call`, the second to
`subgraph_service_name`. -/
def resolvedServiceNames (fetch_node : FetchNode) : String × String :=
  let service_name_string := fetch_node.service_name
  match fetch_node.protocol with
  | .RestFetch node => (node.parent_service_name, node.connector_service_name)
  | _ => (service_name_string, service_name_string)

/-- The `Variables::new` invocation of `FetchService::call`, with the
argument list used at the call site: requires, variable usages, accumulated
data, current path, original request body, schema, input rewrites, context
rewrites. -/
def resolveVariables (self : FetchService) (ext : ExternalFns)
    (request : FetchRequest) : Option Variables :=
  ext.variables_new request.fetch_node.requires
    request.fetch_node.variable_usages request.data request.current_dir
    request.supergraph_request.body self.schema
    request.fetch_node.input_rewrites request.fetch_node.context_rewrites

/-- The aliasing step of `FetchService::call`: when contextual arguments are
present and a subgraph schema is registered under `service_name`, attempt
`build_operation_with_aliasing`, serializing the result on success and
falling back to the raw serialized operation on failure (logged only); when
no subgraph schema is found, or no contextual arguments are present, the raw
serialized operation is used and no attempt is made.  Returns the operation
text together with the trace of attempts. -/
def aliasedOperationStep (self : FetchService) (ext : ExternalFns)
    (operation : Operation) (service_name : String) (resolved : Variables) :
    String × List Effect :=
  match resolved.contextual_arguments with
  | some ctx_arg =>
    match self.subgraph_schemas service_name with
    | some subgraph_schema =>
      ((match ext.build_operation_with_aliasing operation ctx_arg
            subgraph_schema with
        | .ok op => ext.serialize_no_indent op
        | .error _errors => operation.as_serialized),
       [Effect.aliasAttempt operation ctx_arg subgraph_schema])
    | none => (operation.as_serialized, [])
  | none => (operation.as_serialized, [])

/-- The outbound request constructed by `FetchService::call`: POST method,
resolved address, GraphQL-shaped body (operation text, operation name,
variables), attribution subgraph name, operation kind, propagated context,
and the fetch node's query hash and authorization token. -/
def builtSubgraphRequest (request : FetchRequest) (resolved : Variables)
    (uri : Uri) (subgraph_service_name : String)
    (aliased_operation : String) : SubgraphRequest :=
  { supergraph_request := request.supergraph_request
    subgraph_request :=
      { method := "POST"
        uri := uri
        body :=
          { query := aliased_operation
            operation_name := request.fetch_node.operation_name
            vars := resolved.vars } }
    subgraph_name := subgraph_service_name
    operation_kind := request.fetch_node.operation_kind
    context := request.context
    query_hash := request.fetch_node.schema_aware_hash
    authorization := request.fetch_node.authorization }

/-- The connector pre-processing step of `FetchService::call`: when the fetch
node carries a `Connect` source node, `process_source_node` is invoked with
the connector node, the connector registry, the accumulated data and the
inverted paths; its outcome is recorded in the trace and otherwise
discarded (`let _ = ...`). -/
def sourceStep (self : FetchService) (ext : ExternalFns)
    (request : FetchRequest) (resolved : Variables) : List Effect :=
  match request.fetch_node.source_node with
  | some (.Connect connect_node) =>
    [Effect.processSource connect_node
      (ext.process_source_node connect_node self.connectors request.data
        resolved.inverted_paths)]
  | none => []

/-- `FetchService::call`: one dispatch of a fetch request, mirroring the
source's control flow step by step.  Panics (`unwrap_or_else(panic!)`,
`.expect`) are modelled as the `panicked` outcome; the trace records alias
attempts, the service-factory lookup, connector pre-processing and the
transport call. -/
def FetchService.call (self : FetchService) (ext : ExternalFns)
    (request : FetchRequest) : CallResult :=
  match resolveVariables self ext request with
  | none => { outcome := .ok (Value.object [], []), effects := [] }
  | some resolved =>
    let names := resolvedServiceNames request.fetch_node
    let service_name := names.1
    let subgraph_service_name := names.2
    match self.schema.subgraph_url service_name with
    | none =>
      { outcome := .panicked ("schema uri for subgraph " ++ service_name ++
          " should already have been checked")
        effects := [] }
    | some uri =>
      let aliasStep := aliasedOperationStep self ext
        request.fetch_node.operation service_name resolved
      let aliased_operation := aliasStep.1
      let subgraph_request := builtSubgraphRequest request resolved uri
        subgraph_service_name aliased_operation
      let sns := service_name
      match self.service_factory sns with
      | none =>
        { outcome := .panicked
            "we already checked that the service exists during planning; qed"
          effects := aliasStep.2 ++ [Effect.createService sns] }
      | some service =>
        let response := ext.subgraph_fetch service subgraph_request sns
          request.current_dir request.fetch_node.requires
          request.fetch_node.output_rewrites self.schema
          resolved.inverted_paths request.fetch_node.id
          request.deferred_fetches aliased_operation resolved.vars
        { outcome := .ok response
          effects := aliasStep.2 ++ [Effect.createService sns]
            ++ sourceStep self ext request resolved
            ++ [Effect.transportCall service sns subgraph_request] }

/-- The service names for which a transport capability was obtained from the
service factory during a dispatch. -/
def CallResult.createdServices (res : CallResult) : List String :=
  res.effects.filterMap fun e =>
    match e with
    | .createService name => some name
    | _ => none

/-- The transport calls of a dispatch: capability, attribution service name,
and constructed outbound request. -/
def CallResult.transportCalls (res : CallResult) :
    List (TransportService × String × SubgraphRequest) :=
  res.effects.filterMap fun e =>
    match e with
    | .transportCall service name request => some (service, name, request)
    | _ => none

/-- The operation texts sent to the transport during a dispatch. -/
def CallResult.sentQueries (res : CallResult) : List String :=
  res.effects.filterMap fun e =>
    match e with
    | .transportCall _ _ request => some request.subgraph_request.body.query
    | _ => none

/-- The alias-construction attempts of a dispatch. -/
def CallResult.aliasAttempts (res : CallResult) :
    List (Operation × ContextualArguments × SubgraphSchema) :=
  res.effects.filterMap fun e =>
    match e with
    | .aliasAttempt operation args subgraph_schema =>
        some (operation, args, subgraph_schema)
    | _ => none

/-- The connector pre-processing invocations of a dispatch. -/
def CallResult.processedSourceNodes (res : CallResult) :
    List (ConnectNode × ProcessOutcome) :=
  res.effects.filterMap fun e =>
    match e with
    | .processSource node outcome => some (node, outcome)
    | _ => none

/-- Shared unfolding: when variable resolution yields a result and both the
target address and the transport capability exist for the resolved
`service_name`, the dispatch is the transport response plus the full effect
trace. -/
theorem call_eq_of_resolved (self : FetchService) (ext : ExternalFns)
    (request : FetchRequest) (resolved : Variables) (uri : Uri)
    (service : TransportService)
    (hvars : resolveVariables self ext request = some resolved)
    (hurl : self.schema.subgraph_url
      (resolvedServiceNames request.fetch_node).1 = some uri)
    (hsvc : self.service_factory
      (resolvedServiceNames request.fetch_node).1 = some service) :
    FetchService.call self ext request =
      { outcome := .ok (ext.subgraph_fetch service
          (builtSubgraphRequest request resolved uri
            (resolvedServiceNames request.fetch_node).2
            (aliasedOperationStep self ext request.fetch_node.operation
              (resolvedServiceNames request.fetch_node).1 resolved).1)
          (resolvedServiceNames request.fetch_node).1 request.current_dir
          request.fetch_node.requires request.fetch_node.output_rewrites
          self.schema resolved.inverted_paths request.fetch_node.id
          request.deferred_fetches
          (aliasedOperationStep self ext request.fetch_node.operation
            (resolvedServiceNames request.fetch_node).1 resolved).1
          resolved.vars)
        effects :=
          (aliasedOperationStep self ext request.fetch_node.operation
            (resolvedServiceNames request.fetch_node).1 resolved).2
          ++ [Effect.createService (resolvedServiceNames request.fetch_node).1]
          ++ sourceStep self ext request resolved
          ++ [Effect.transportCall service
                (resolvedServiceNames request.fetch_node).1
                (builtSubgraphRequest request resolved uri
                  (resolvedServiceNames request.fetch_node).2
                  (aliasedOperationStep self ext request.fetch_node.operation
                    (resolvedServiceNames request.fetch_node).1 resolved).1)] } := by
  simp only [FetchService.call, hvars, hurl, hsvc]

/-- C2: when variable resolution yields no result, the dispatcher returns
success immediately with an empty object and an empty deferred-fetch record
list, with an empty trace — in particular the transport is never invoked. -/
theorem c2_no_variables_short_circuit (self : FetchService)
    (ext : ExternalFns) (request : FetchRequest)
    (hvars : resolveVariables self ext request = none) :
    FetchService.call self ext request =
      { outcome := .ok (Value.object [], []), effects := [] } ∧
    (FetchService.call self ext request).transportCalls = [] := by
  have h : FetchService.call self ext request =
      { outcome := .ok (Value.object [], []), effects := [] } := by
    simp only [FetchService.call, hvars]
  exact ⟨h, by rw [h]; rfl⟩

/-- C7: with variables resolved, a missing target address for the resolved
service name is a panic; with an address present, a missing transport
capability is a panic; and when both exist the dispatch cannot panic — the
panic branches are unreachable under the planning guarantee. -/
theorem c7_missing_url_or_service_panics (self : FetchService)
    (ext : ExternalFns) (request : FetchRequest) (resolved : Variables)
    (hvars : resolveVariables self ext request = some resolved) :
    (self.schema.subgraph_url (resolvedServiceNames request.fetch_node).1 = none →
      ∃ msg, (FetchService.call self ext request).outcome = .panicked msg) ∧
    (∀ uri, self.schema.subgraph_url
        (resolvedServiceNames request.fetch_node).1 = some uri →
      self.service_factory (resolvedServiceNames request.fetch_node).1 = none →
      ∃ msg, (FetchService.call self ext request).outcome = .panicked msg) ∧
    (∀ uri service, self.schema.subgraph_url
        (resolvedServiceNames request.fetch_node).1 = some uri →
      self.service_factory (resolvedServiceNames request.fetch_node).1 = some service →
      ∃ response, (FetchService.call self ext request).outcome = .ok response) := by
  refine ⟨?_, ?_, ?_⟩
  · intro hurl
    refine ⟨"schema uri for subgraph " ++
      (resolvedServiceNames request.fetch_node).1 ++
      " should already have been checked", ?_⟩
    simp only [FetchService.call, hvars, hurl]
  · intro uri hurl hsvc
    refine ⟨"we already checked that the service exists during planning; qed", ?_⟩
    simp only [FetchService.call, hvars, hurl, hsvc]
  · intro uri service hurl hsvc
    rw [call_eq_of_resolved self ext request resolved uri service hvars hurl hsvc]
    exact ⟨_, rfl⟩

/-- The aliasing step produces either no trace entry (nothing to attempt) or
exactly one alias attempt. -/
theorem aliasedOperationStep_shape (self : FetchService) (ext : ExternalFns)
    (operation : Operation) (service_name : String) (resolved : Variables) :
    (aliasedOperationStep self ext operation service_name resolved).2 = [] ∨
    ∃ ctx_arg subgraph_schema,
      (aliasedOperationStep self ext operation service_name resolved).2 =
        [Effect.aliasAttempt operation ctx_arg subgraph_schema] := by
  unfold aliasedOperationStep
  rcases Option.eq_none_or_eq_some resolved.contextual_arguments with hca | ⟨ca, hca⟩
  · rw [hca]; exact Or.inl rfl
  · rw [hca]
    rcases Option.eq_none_or_eq_some (self.subgraph_schemas service_name) with hss | ⟨sch, hss⟩
    · rw [hss]; exact Or.inl rfl
    · rw [hss]; exact Or.inr ⟨ca, sch, rfl⟩

/-- The connector pre-processing step produces either no trace entry or
exactly one `processSource` entry. -/
theorem sourceStep_shape (self : FetchService) (ext : ExternalFns)
    (request : FetchRequest) (resolved : Variables) :
    sourceStep self ext request resolved = [] ∨
    ∃ connect_node outcome,
      sourceStep self ext request resolved =
        [Effect.processSource connect_node outcome] := by
  unfold sourceStep
  rcases Option.eq_none_or_eq_some request.fetch_node.source_node with hsn | ⟨node, hsn⟩
  · rw [hsn]; exact Or.inl rfl
  · rw [hsn]
    cases node with
    | Connect connect_node => exact Or.inr ⟨connect_node, _, rfl⟩

/-- With variables resolved and address and capability present, the trace
contains exactly one service-factory lookup, for the resolved
`service_name`. -/
theorem call_createdServices (self : FetchService) (ext : ExternalFns)
    (request : FetchRequest) (resolved : Variables) (uri : Uri)
    (service : TransportService)
    (hvars : resolveVariables self ext request = some resolved)
    (hurl : self.schema.subgraph_url
      (resolvedServiceNames request.fetch_node).1 = some uri)
    (hsvc : self.service_factory
      (resolvedServiceNames request.fetch_node).1 = some service) :
    (FetchService.call self ext request).createdServices =
      [(resolvedServiceNames request.fetch_node).1] := by
  rw [call_eq_of_resolved self ext request resolved uri service hvars hurl hsvc]
  unfold CallResult.createdServices
  simp only [List.filterMap_append]
  rcases aliasedOperationStep_shape self ext request.fetch_node.operation
    (resolvedServiceNames request.fetch_node).1 resolved with ha | ⟨ca, sch, ha⟩ <;>
    rcases sourceStep_shape self ext request resolved with hs | ⟨cn, oc, hs⟩ <;>
    simp [ha, hs]

/-- With variables resolved and address and capability present, the trace
contains exactly one transport call: the capability obtained for the resolved
`service_name`, attributed to that same name, with the constructed request. -/
theorem call_transportCalls (self : FetchService) (ext : ExternalFns)
    (request : FetchRequest) (resolved : Variables) (uri : Uri)
    (service : TransportService)
    (hvars : resolveVariables self ext request = some resolved)
    (hurl : self.schema.subgraph_url
      (resolvedServiceNames request.fetch_node).1 = some uri)
    (hsvc : self.service_factory
      (resolvedServiceNames request.fetch_node).1 = some service) :
    (FetchService.call self ext request).transportCalls =
      [(service, (resolvedServiceNames request.fetch_node).1,
        builtSubgraphRequest request resolved uri
          (resolvedServiceNames request.fetch_node).2
          (aliasedOperationStep self ext request.fetch_node.operation
            (resolvedServiceNames request.fetch_node).1 resolved).1)] := by
  rw [call_eq_of_resolved self ext request resolved uri service hvars hurl hsvc]
  unfold CallResult.transportCalls
  simp only [List.filterMap_append]
  rcases aliasedOperationStep_shape self ext request.fetch_node.operation
    (resolvedServiceNames request.fetch_node).1 resolved with ha | ⟨ca, sch, ha⟩ <;>
    rcases sourceStep_shape self ext request resolved with hs | ⟨cn, oc, hs⟩ <;>
    simp [ha, hs]

/-- With variables resolved and address and capability present, exactly one
operation text is sent: the output of the aliasing step. -/
theorem call_sentQueries (self : FetchService) (ext : ExternalFns)
    (request : FetchRequest) (resolved : Variables) (uri : Uri)
    (service : TransportService)
    (hvars : resolveVariables self ext request = some resolved)
    (hurl : self.schema.subgraph_url
      (resolvedServiceNames request.fetch_node).1 = some uri)
    (hsvc : self.service_factory
      (resolvedServiceNames request.fetch_node).1 = some service) :
    (FetchService.call self ext request).sentQueries =
      [(aliasedOperationStep self ext request.fetch_node.operation
        (resolvedServiceNames request.fetch_node).1 resolved).1] := by
  rw [call_eq_of_resolved self ext request resolved uri service hvars hurl hsvc]
  unfold CallResult.sentQueries
  simp only [List.filterMap_append]
  rcases aliasedOperationStep_shape self ext request.fetch_node.operation
    (resolvedServiceNames request.fetch_node).1 resolved with ha | ⟨ca, sch, ha⟩ <;>
    rcases sourceStep_shape self ext request resolved with hs | ⟨cn, oc, hs⟩ <;>
    simp [ha, hs, builtSubgraphRequest]

/-- Fixture: a plain fetch node used by the dispatcher witnesses. -/
def demoNode : FetchNode :=
  { operation := ⟨"query demo"⟩
    operation_kind := .query
    operation_name := none
    service_name := "plainService"
    requires := ⟨[]⟩
    input_rewrites := ⟨[]⟩
    context_rewrites := ⟨[]⟩
    variable_usages := []
    output_rewrites := ⟨[]⟩
    id := none
    protocol := .GraphQL
    source_node := none
    schema_aware_hash := ⟨"hash"⟩
    authorization := ⟨"authz"⟩ }

/-- Fixture: a fetch request around `demoNode`. -/
def demoRequest : FetchRequest :=
  { fetch_node := demoNode
    supergraph_request := ⟨⟨"original body"⟩⟩
    deferred_fetches := ⟨[]⟩
    data := Value.null
    current_dir := []
    context := ⟨"ctx"⟩ }

/-- Fixture: resolved variables without contextual arguments. -/
def demoResolved : Variables :=
  { vars := [], inverted_paths := [], contextual_arguments := none }

/-- Fixture: a dispatcher configuration where every service has an address
and a transport capability, and no subgraph schemas are registered. -/
def demoSelf : FetchService :=
  { service_factory := fun name => some ⟨name⟩
    schema := ⟨fun _ => some ⟨"http://demo.example"⟩⟩
    subgraph_schemas := fun _ => none
    connectors := ⟨"registry"⟩ }

/-- Fixture: collaborator functions — resolution yields `demoResolved`,
aliasing always fails, the transport returns a null value. -/
def demoExt : ExternalFns :=
  { variables_new := fun _ _ _ _ _ _ _ _ => some demoResolved
    build_operation_with_aliasing := fun _ _ _ => .error ⟨"no alias"⟩
    serialize_no_indent := fun op => op.doc
    process_source_node := fun _ _ _ _ => ⟨true⟩
    subgraph_fetch := fun _ _ _ _ _ _ _ _ _ _ _ _ => (Value.null, []) }

/-- Fixture: a REST/connector-backed fetch request with distinct connector
and parent service names. -/
def restRequest : FetchRequest :=
  { demoRequest with fetch_node :=
      { demoNode with protocol :=
          Protocol.RestFetch ⟨"connectorService", "parentService"⟩ } }

/-- C1 counterexample: on this REST/connector-backed request the transport
capability is obtained for the parent service name, not the connector
service name, so addressing the transport by the connector name — as the
claim states — fails.  Attribution on the outbound request, by contrast,
carries the connector name. -/
theorem c1_rest_fetch_transport_name_counterexample :
    restRequest.fetch_node.protocol =
      Protocol.RestFetch ⟨"connectorService", "parentService"⟩ ∧
    (FetchService.call demoSelf demoExt restRequest).createdServices =
      ["parentService"] ∧
    (FetchService.call demoSelf demoExt restRequest).createdServices ≠
      ["connectorService"] ∧
    (FetchService.call demoSelf demoExt restRequest).transportCalls.map
      (fun c => c.2.1) = ["parentService"] := by
  exact ⟨rfl, rfl, by decide, rfl⟩

/-- C1 amended: for a REST/connector-backed fetch node, the transport
capability is obtained for — and the transport call attributed to — the
parent service name, which is also the name whose address is resolved; the
connector service name is carried only as the outbound request's subgraph
name. -/
theorem c1_rest_fetch_service_names_amended (self : FetchService)
    (ext : ExternalFns) (request : FetchRequest) (node : RestFetchNode)
    (resolved : Variables) (uri : Uri) (service : TransportService)
    (hproto : request.fetch_node.protocol = .RestFetch node)
    (hvars : resolveVariables self ext request = some resolved)
    (hurl : self.schema.subgraph_url node.parent_service_name = some uri)
    (hsvc : self.service_factory node.parent_service_name = some service) :
    (FetchService.call self ext request).createdServices =
      [node.parent_service_name] ∧
    ∃ req, (FetchService.call self ext request).transportCalls =
        [(service, node.parent_service_name, req)] ∧
      req.subgraph_name = node.connector_service_name ∧
      req.subgraph_request.uri = uri ∧
      req.subgraph_request.method = "POST" := by
  have hnames : resolvedServiceNames request.fetch_node =
      (node.parent_service_name, node.connector_service_name) := by
    unfold resolvedServiceNames
    rw [hproto]
  have hurl2 : self.schema.subgraph_url
      (resolvedServiceNames request.fetch_node).1 = some uri := by
    rw [hnames]; exact hurl
  have hsvc2 : self.service_factory
      (resolvedServiceNames request.fetch_node).1 = some service := by
    rw [hnames]; exact hsvc
  constructor
  · rw [call_createdServices self ext request resolved uri service hvars hurl2 hsvc2,
      hnames]
  · have ht := call_transportCalls self ext request resolved uri service hvars hurl2 hsvc2
    rw [hnames] at ht
    exact ⟨_, ht, rfl, rfl, rfl⟩

/-- Aliasing step, successful construction: the operation text is the
serialized aliased operation and one attempt is traced. -/
theorem aliasedOperationStep_build_ok (self : FetchService)
    (ext : ExternalFns) (operation : Operation) (service_name : String)
    (resolved : Variables) (ctx_arg : ContextualArguments)
    (subgraph_schema : SubgraphSchema) (op : AliasedOperation)
    (hca : resolved.contextual_arguments = some ctx_arg)
    (hschema : self.subgraph_schemas service_name = some subgraph_schema)
    (hbuild : ext.build_operation_with_aliasing operation ctx_arg
      subgraph_schema = .ok op) :
    aliasedOperationStep self ext operation service_name resolved =
      (ext.serialize_no_indent op,
       [Effect.aliasAttempt operation ctx_arg subgraph_schema]) := by
  unfold aliasedOperationStep
  simp only [hca, hschema, hbuild]

/-- Aliasing step, failed construction: the raw operation text is used and
one attempt is traced. -/
theorem aliasedOperationStep_build_error (self : FetchService)
    (ext : ExternalFns) (operation : Operation) (service_name : String)
    (resolved : Variables) (ctx_arg : ContextualArguments)
    (subgraph_schema : SubgraphSchema) (err : AliasError)
    (hca : resolved.contextual_arguments = some ctx_arg)
    (hschema : self.subgraph_schemas service_name = some subgraph_schema)
    (hbuild : ext.build_operation_with_aliasing operation ctx_arg
      subgraph_schema = .error err) :
    aliasedOperationStep self ext operation service_name resolved =
      (operation.as_serialized,
       [Effect.aliasAttempt operation ctx_arg subgraph_schema]) := by
  unfold aliasedOperationStep
  simp only [hca, hschema, hbuild]

/-- Aliasing step, no registered subgraph schema: the raw operation text is
used and no attempt is traced. -/
theorem aliasedOperationStep_no_schema (self : FetchService)
    (ext : ExternalFns) (operation : Operation) (service_name : String)
    (resolved : Variables) (ctx_arg : ContextualArguments)
    (hca : resolved.contextual_arguments = some ctx_arg)
    (hschema : self.subgraph_schemas service_name = none) :
    aliasedOperationStep self ext operation service_name resolved =
      (operation.as_serialized, []) := by
  unfold aliasedOperationStep
  simp only [hca, hschema]

/-- Connector pre-processing with a `Connect` source node attached: exactly
one invocation, with the connector node, registry, data and inverted
paths. -/
theorem sourceStep_connect (self : FetchService) (ext : ExternalFns)
    (request : FetchRequest) (resolved : Variables)
    (connect_node : ConnectNode)
    (hsource : request.fetch_node.source_node = some (.Connect connect_node)) :
    sourceStep self ext request resolved =
      [Effect.processSource connect_node
        (ext.process_source_node connect_node self.connectors request.data
          resolved.inverted_paths)] := by
  unfold sourceStep
  simp only [hsource]

/-- C3: with contextual arguments present and a subgraph schema registered,
successful alias construction sends exactly the serialized aliased operation
(differing from the raw text whenever the serialization differs), while
failed construction sends the raw unmodified text; in both cases the
dispatch returns the transport response and surfaces no error. -/
theorem c3_aliasing_success_or_fallback (self : FetchService)
    (ext : ExternalFns) (request : FetchRequest) (resolved : Variables)
    (ctx_arg : ContextualArguments) (subgraph_schema : SubgraphSchema)
    (uri : Uri) (service : TransportService)
    (hvars : resolveVariables self ext request = some resolved)
    (hca : resolved.contextual_arguments = some ctx_arg)
    (hschema : self.subgraph_schemas
      (resolvedServiceNames request.fetch_node).1 = some subgraph_schema)
    (hurl : self.schema.subgraph_url
      (resolvedServiceNames request.fetch_node).1 = some uri)
    (hsvc : self.service_factory
      (resolvedServiceNames request.fetch_node).1 = some service) :
    (∀ op, ext.build_operation_with_aliasing request.fetch_node.operation
        ctx_arg subgraph_schema = .ok op →
      (FetchService.call self ext request).sentQueries =
        [ext.serialize_no_indent op] ∧
      (ext.serialize_no_indent op ≠ request.fetch_node.operation.as_serialized →
        (FetchService.call self ext request).sentQueries ≠
          [request.fetch_node.operation.as_serialized]) ∧
      ∃ response, (FetchService.call self ext request).outcome = .ok response) ∧
    (∀ err, ext.build_operation_with_aliasing request.fetch_node.operation
        ctx_arg subgraph_schema = .error err →
      (FetchService.call self ext request).sentQueries =
        [request.fetch_node.operation.as_serialized] ∧
      ∃ response, (FetchService.call self ext request).outcome = .ok response) := by
  constructor
  · intro op hbuild
    have hq : (FetchService.call self ext request).sentQueries =
        [ext.serialize_no_indent op] := by
      rw [call_sentQueries self ext request resolved uri service hvars hurl hsvc,
        aliasedOperationStep_build_ok self ext request.fetch_node.operation
          (resolvedServiceNames request.fetch_node).1 resolved ctx_arg
          subgraph_schema op hca hschema hbuild]
    refine ⟨hq, ?_, ?_⟩
    · intro hne
      rw [hq]
      simp [hne]
    · rw [call_eq_of_resolved self ext request resolved uri service hvars hurl hsvc]
      exact ⟨_, rfl⟩
  · intro err hbuild
    refine ⟨?_, ?_⟩
    · rw [call_sentQueries self ext request resolved uri service hvars hurl hsvc,
        aliasedOperationStep_build_error self ext request.fetch_node.operation
          (resolvedServiceNames request.fetch_node).1 resolved ctx_arg
          subgraph_schema err hca hschema hbuild]
    · rw [call_eq_of_resolved self ext request resolved uri service hvars hurl hsvc]
      exact ⟨_, rfl⟩

/-- C9: with contextual arguments present but no subgraph schema registered
under the resolved service name, no alias construction is attempted — the
trace has no attempt, the dispatch does not depend on the aliasing function
at all — and the raw unmodified operation text is sent, with no error
surfaced. -/
theorem c9_missing_subgraph_schema_skips_aliasing (self : FetchService)
    (ext : ExternalFns) (request : FetchRequest) (resolved : Variables)
    (ctx_arg : ContextualArguments) (uri : Uri) (service : TransportService)
    (hvars : resolveVariables self ext request = some resolved)
    (hca : resolved.contextual_arguments = some ctx_arg)
    (hschema : self.subgraph_schemas
      (resolvedServiceNames request.fetch_node).1 = none)
    (hurl : self.schema.subgraph_url
      (resolvedServiceNames request.fetch_node).1 = some uri)
    (hsvc : self.service_factory
      (resolvedServiceNames request.fetch_node).1 = some service) :
    (FetchService.call self ext request).aliasAttempts = [] ∧
    (FetchService.call self ext request).sentQueries =
      [request.fetch_node.operation.as_serialized] ∧
    (∃ response, (FetchService.call self ext request).outcome = .ok response) ∧
    ∀ build2, FetchService.call self
        { ext with build_operation_with_aliasing := build2 } request =
      FetchService.call self ext request := by
  have halias := aliasedOperationStep_no_schema self ext
    request.fetch_node.operation (resolvedServiceNames request.fetch_node).1
    resolved ctx_arg hca hschema
  refine ⟨?_, ?_, ?_, ?_⟩
  · rw [call_eq_of_resolved self ext request resolved uri service hvars hurl hsvc]
    unfold CallResult.aliasAttempts
    simp only [List.filterMap_append, halias]
    rcases sourceStep_shape self ext request resolved with hs | ⟨cn, oc, hs⟩ <;>
      simp [hs]
  · rw [call_sentQueries self ext request resolved uri service hvars hurl hsvc,
      halias]
  · rw [call_eq_of_resolved self ext request resolved uri service hvars hurl hsvc]
    exact ⟨_, rfl⟩
  · intro build2
    have halias2 := aliasedOperationStep_no_schema self
      { ext with build_operation_with_aliasing := build2 }
      request.fetch_node.operation (resolvedServiceNames request.fetch_node).1
      resolved ctx_arg hca hschema
    rw [call_eq_of_resolved self { ext with build_operation_with_aliasing := build2 }
        request resolved uri service hvars hurl hsvc,
      call_eq_of_resolved self ext request resolved uri service hvars hurl hsvc,
      halias, halias2]
    rfl

/-- C8: with a `Connect` source node attached and the dispatch reaching the
transport, connector pre-processing is invoked exactly once, with the
connector node, registry, accumulated data and inverted paths, strictly
before the transport call; and its outcome is discarded — the dispatch
outcome is unchanged under any replacement of the pre-processing
function. -/
theorem c8_process_source_node_invoked_and_discarded (self : FetchService)
    (ext : ExternalFns) (request : FetchRequest) (resolved : Variables)
    (uri : Uri) (service : TransportService) (connect_node : ConnectNode)
    (hvars : resolveVariables self ext request = some resolved)
    (hurl : self.schema.subgraph_url
      (resolvedServiceNames request.fetch_node).1 = some uri)
    (hsvc : self.service_factory
      (resolvedServiceNames request.fetch_node).1 = some service)
    (hsource : request.fetch_node.source_node = some (.Connect connect_node)) :
    (FetchService.call self ext request).processedSourceNodes =
      [(connect_node, ext.process_source_node connect_node self.connectors
        request.data resolved.inverted_paths)] ∧
    (∃ es req, (FetchService.call self ext request).effects =
      es ++ [Effect.processSource connect_node
          (ext.process_source_node connect_node self.connectors request.data
            resolved.inverted_paths),
        Effect.transportCall service
          (resolvedServiceNames request.fetch_node).1 req]) ∧
    ∀ process2, (FetchService.call self
        { ext with process_source_node := process2 } request).outcome =
      (FetchService.call self ext request).outcome := by
  have hsrc := sourceStep_connect self ext request resolved connect_node hsource
  refine ⟨?_, ?_, ?_⟩
  · rw [call_eq_of_resolved self ext request resolved uri service hvars hurl hsvc]
    unfold CallResult.processedSourceNodes
    simp only [List.filterMap_append, hsrc]
    rcases aliasedOperationStep_shape self ext request.fetch_node.operation
      (resolvedServiceNames request.fetch_node).1 resolved with ha | ⟨ca, sch, ha⟩ <;>
      simp [ha]
  · rw [call_eq_of_resolved self ext request resolved uri service hvars hurl hsvc]
    refine ⟨(aliasedOperationStep self ext request.fetch_node.operation
        (resolvedServiceNames request.fetch_node).1 resolved).2 ++
      [Effect.createService (resolvedServiceNames request.fetch_node).1],
      builtSubgraphRequest request resolved uri
        (resolvedServiceNames request.fetch_node).2
        (aliasedOperationStep self ext request.fetch_node.operation
          (resolvedServiceNames request.fetch_node).1 resolved).1, ?_⟩
    rw [hsrc]
    simp [List.append_assoc]
  · intro process2
    rw [call_eq_of_resolved self { ext with process_source_node := process2 }
        request resolved uri service hvars hurl hsvc,
      call_eq_of_resolved self ext request resolved uri service hvars hurl hsvc]
    rfl

/-- Fixture: collaborators whose variable resolution finds nothing. -/
def noVarsExt : ExternalFns :=
  { demoExt with variables_new := fun _ _ _ _ _ _ _ _ => none }

/-- C2 witness: a concrete dispatch whose variable resolution yields no
result returns the empty-object success with an empty trace. -/
theorem c2_no_variables_short_circuit_witness :
    resolveVariables demoSelf noVarsExt demoRequest = none ∧
    FetchService.call demoSelf noVarsExt demoRequest =
      { outcome := .ok (Value.object [], []), effects := [] } :=
  ⟨rfl, (c2_no_variables_short_circuit demoSelf noVarsExt demoRequest rfl).1⟩

/-- Fixture: a configuration whose service registry has no addresses. -/
def noUrlSelf : FetchService :=
  { demoSelf with schema := ⟨fun _ => none⟩ }

/-- C7 witness: a concrete dispatch with variables resolved but no target
address panics. -/
theorem c7_missing_url_or_service_panics_witness :
    resolveVariables noUrlSelf demoExt demoRequest = some demoResolved ∧
    ∃ msg, (FetchService.call noUrlSelf demoExt demoRequest).outcome =
      .panicked msg :=
  ⟨rfl,
   (c7_missing_url_or_service_panics noUrlSelf demoExt demoRequest
     demoResolved rfl).1 rfl⟩

/-- C1 witness for the amended claim, on the concrete REST/connector-backed
fixture. -/
theorem c1_rest_fetch_service_names_amended_witness :
    (FetchService.call demoSelf demoExt restRequest).createdServices =
      ["parentService"] ∧
    ∃ req, (FetchService.call demoSelf demoExt restRequest).transportCalls =
        [(⟨"parentService"⟩, "parentService", req)] ∧
      req.subgraph_name = "connectorService" ∧
      req.subgraph_request.uri = ⟨"http://demo.example"⟩ ∧
      req.subgraph_request.method = "POST" :=
  c1_rest_fetch_service_names_amended demoSelf demoExt restRequest
    ⟨"connectorService", "parentService"⟩ demoResolved
    ⟨"http://demo.example"⟩ ⟨"parentService"⟩ rfl rfl rfl rfl

/-- Fixture: resolved variables carrying contextual arguments. -/
def ctxResolved : Variables :=
  { vars := [], inverted_paths := [], contextual_arguments := some ⟨"ctx args"⟩ }

/-- Fixture: a configuration with a registered subgraph schema for every
service. -/
def aliasSelf : FetchService :=
  { demoSelf with subgraph_schemas := fun _ => some ⟨"subschema"⟩ }

/-- Fixture: collaborators resolving contextual arguments and aliasing
successfully. -/
def aliasExt : ExternalFns :=
  { demoExt with
    variables_new := fun _ _ _ _ _ _ _ _ => some ctxResolved
    build_operation_with_aliasing := fun op _ _ =>
      .ok ⟨"aliased " ++ op.as_serialized⟩ }

/-- C3 witness: a concrete dispatch whose alias construction succeeds sends
the serialized aliased operation, which differs from the raw text, and
surfaces no error. -/
theorem c3_aliasing_success_or_fallback_witness :
    (FetchService.call aliasSelf aliasExt demoRequest).sentQueries =
      ["aliased query demo"] ∧
    (FetchService.call aliasSelf aliasExt demoRequest).sentQueries ≠
      ["query demo"] ∧
    ∃ response, (FetchService.call aliasSelf aliasExt demoRequest).outcome =
      .ok response := by
  have h := (c3_aliasing_success_or_fallback aliasSelf aliasExt demoRequest
    ctxResolved ⟨"ctx args"⟩ ⟨"subschema"⟩ ⟨"http://demo.example"⟩
    ⟨"plainService"⟩ rfl rfl rfl rfl rfl).1 ⟨"aliased query demo"⟩ rfl
  exact ⟨h.1, h.2.1 (by decide), h.2.2⟩

/-- Fixture: collaborators resolving contextual arguments under a
configuration with no registered subgraph schemas. -/
def ctxExt : ExternalFns :=
  { demoExt with variables_new := fun _ _ _ _ _ _ _ _ => some ctxResolved }

/-- C9 witness: a concrete dispatch with contextual arguments but no
registered subgraph schema attempts no aliasing and sends the raw text. -/
theorem c9_missing_subgraph_schema_skips_aliasing_witness :
    (FetchService.call demoSelf ctxExt demoRequest).aliasAttempts = [] ∧
    (FetchService.call demoSelf ctxExt demoRequest).sentQueries =
      ["query demo"] ∧
    ∃ response, (FetchService.call demoSelf ctxExt demoRequest).outcome =
      .ok response := by
  have h := c9_missing_subgraph_schema_skips_aliasing demoSelf ctxExt
    demoRequest ctxResolved ⟨"ctx args"⟩ ⟨"http://demo.example"⟩
    ⟨"plainService"⟩ rfl rfl rfl rfl rfl
  exact ⟨h.1, h.2.1, h.2.2.1⟩

/-- Fixture: a fetch request whose node carries a `Connect` source node. -/
def connectRequest : FetchRequest :=
  { demoRequest with fetch_node :=
      { demoNode with source_node := some (.Connect ⟨"connector"⟩) } }

/-- C8 witness: a concrete dispatch with a connector descriptor invokes
pre-processing once and its outcome does not affect the dispatch outcome. -/
theorem c8_process_source_node_invoked_and_discarded_witness :
    (FetchService.call demoSelf demoExt connectRequest).processedSourceNodes =
      [(⟨"connector"⟩, ⟨true⟩)] ∧
    ∀ process2, (FetchService.call demoSelf
        { demoExt with process_source_node := process2 }
        connectRequest).outcome =
      (FetchService.call demoSelf demoExt connectRequest).outcome := by
  have h := c8_process_source_node_invoked_and_discarded demoSelf demoExt
    connectRequest demoResolved ⟨"http://demo.example"⟩ ⟨"plainService"⟩
    ⟨"connector"⟩ rfl rfl rfl rfl
  exact ⟨h.1, h.2.2⟩
